import Mathlib

/-
Verification of the Slack download-URL generator webhook handler
(go/main.go: lambdaHandler, verifyRequest, handleURLVerification,
validateFile, sendErrorToSlack, handleAppMentionEvent,
uploadFileToS3AndGetPresignedURL).

The handler is embedded as a pure function over an explicit environment
of downstream collaborators (the slack client, the S3 client, the URL
shortener, and the JSON/event decoding performed by external libraries).
Every call the handler makes to a collaborator is recorded in a trace,
so that ordering and counting properties of the side effects become
statements about lists.  Go strings are modelled as Lean strings, with
the byte-level slicing of validateFile expressed over the character
list (all names of interest are ASCII, where the two coincide); a Go
slice panic is modelled as an explicit outcome.
-/

namespace SlackRelay

/-- Embedding of events.APIGatewayProxyResponse: only the two fields the
handler sets. -/
structure APIGatewayProxyResponse where
  StatusCode : Nat
  Body : String
  deriving DecidableEq, Repr

/-- Embedding of events.APIGatewayProxyRequest: headers as an association
list and the raw body. -/
structure APIGatewayProxyRequest where
  Headers : List (String × String)
  Body : String
  deriving DecidableEq, Repr

/-- Reading a Go map of strings: a missing key yields the empty string,
exactly as headers["X-Slack-Retry-Num"] does in Go. -/
def hget (hs : List (String × String)) (k : String) : String :=
  match hs.find? (fun p => p.fst == k) with
  | some p => p.snd
  | none => ""

/-- Embedding of SlackAppMentionEventFile.  Binary holds the bytes
downloaded from Slack (empty until the download step fills it in). -/
structure SlackAppMentionEventFile where
  ID : String
  Name : String
  URLPrivateDownload : String
  Binary : List Nat
  deriving DecidableEq, Repr

/-- Embedding of the fields of slackevents.AppMentionEvent that the
handler reads. -/
structure AppMentionEvent where
  Channel : String
  TimeStamp : String
  deriving DecidableEq, Repr

/-- Result of slackevents.ParseEvent as the handler inspects it: either a
URL-verification event, a callback event whose inner event is an app
mention, a callback event with some other inner event, or an event of
some other type. -/
inductive ParsedEvent where
  | urlVerification
  | callbackAppMention (ev : AppMentionEvent)
  | callbackOther
  | otherType
  deriving DecidableEq, Repr

/-- Trace entries: one per invocation of an external collaborator.  The
first four are the authenticator and the JSON/event decoders; the last
six are the downstream capabilities (Slack file fetch, Slack file
delete, S3 put, S3 presign, URL shorten, Slack message post). -/
inductive Call where
  | verifyCall
  | parseEventCall
  | parseFilesCall
  | parseChallengeCall
  | getFile (url : String)
  | deleteFile (id : String)
  | putObject (key : String) (body : List Nat)
  | presign (key : String)
  | shorten (url : String)
  | postMessage (channel : String) (text : String) (ts : String)
  deriving DecidableEq, Repr

def Call.isGetFile : Call → Bool
  | .getFile _ => true
  | _ => false

def Call.isDeleteFile : Call → Bool
  | .deleteFile _ => true
  | _ => false

def Call.isPutObject : Call → Bool
  | .putObject _ _ => true
  | _ => false

def Call.isPresign : Call → Bool
  | .presign _ => true
  | _ => false

def Call.isShorten : Call → Bool
  | .shorten _ => true
  | _ => false

def Call.isPostMessage : Call → Bool
  | .postMessage _ _ _ => true
  | _ => false

/-- Downstream capabilities in the sense of the spec: file fetch, delete,
upload, presign, shorten, message post. -/
def Call.downstream (c : Call) : Bool :=
  c.isGetFile || c.isDeleteFile || c.isPutObject || c.isPresign ||
    c.isShorten || c.isPostMessage

/-- Behaviour of the external collaborators during one invocation: the
slack secrets verifier, the event / JSON decoders, and the six
downstream capabilities.  Each is a function of the arguments the Go
code passes, returning success or an error, so that a single Env fixes
the whole run deterministically. -/
structure Env where
  secretsVerify : List (String × String) → String → Except String Unit
  parseEvent : String → Except String ParsedEvent
  parseChallenge : String → Except String String
  parseFiles : String → Except String (List SlackAppMentionEventFile)
  getFile : String → Except String (List Nat)
  deleteFile : String → Except String Unit
  putObject : String → List Nat → Except String Unit
  presignGetObject : String → Except String String
  shorten : String → Except String String
  postMessage : String → String → String → Except String Unit

/-- Outcome of a Go handler function: a response together with whether a
non-nil error was returned alongside it, or a runtime panic. -/
inductive HandlerOutcome where
  | returns (resp : APIGatewayProxyResponse) (errNonNil : Bool)
  | panics
  deriving DecidableEq, Repr

/-- Embedding of verifyRequest: builds a secrets verifier over the headers
and the signing secret and checks the body; all three failure points of
the Go function surface the library error unchanged, so the whole check
is one oracle consultation. -/
def verifyRequest (env : Env) (headers : List (String × String)) (body : String) :
    Except String Unit :=
  env.secretsVerify headers body

/-- Error message posted for the filename policy violation. -/
def invalidNameReason : String := "ファイル名は「半角英数字」にしてください。"

/-- Error message posted for the extension policy violation. -/
def invalidExtReason : String := "ファイルは「zip」形式にしてください。"

/-- Generic error message used by most failure paths. -/
def genericErrorReason : String := "エラーが発生しました。処理を完了できませんでした。"

/-- Error message used when the URL shortener fails. -/
def shortenErrorReason : String := "URLの短縮中にエラーが発生しました。処理を完了できませんでした。"

/-- Character class of the Go regular expression [a-zA-Z0-9_-]. -/
def isValidNameChar (c : Char) : Bool :=
  ('a' ≤ c && c ≤ 'z') || ('A' ≤ c && c ≤ 'Z') || ('0' ≤ c && c ≤ '9') ||
    c == '_' || c == '-'

/-- Matching of the anchored Go regular expression ^[a-zA-Z0-9_-]+$
against a whole string: at least one character, all from the class. -/
def matchesValidName (s : List Char) : Bool :=
  !s.isEmpty && s.all isValidNameChar

/-- Embedding of strings.HasSuffix. -/
def hasSuffix (s suffix : List Char) : Bool :=
  suffix.isSuffixOf s

/-- Result of running validateFile, with the Go slice panic explicit. -/
inductive ValidateResult where
  | panicked
  | rejected (reason : String)
  | ok
  deriving DecidableEq, Repr

/-- Embedding of validateFile.  The Go code slices Name[:len(Name)-4]
unconditionally; when the name is shorter than 4 the slice bound is
negative and the program panics, which is modelled as the panicked
result.  Otherwise the base obtained by removing the last 4 characters
is matched against the anchored regular expression, and then the .zip
suffix is checked, in that order. -/
def validateFile (name : String) : ValidateResult :=
  if name.data.length < 4 then ValidateResult.panicked
  else if !matchesValidName (name.data.take (name.data.length - 4)) then
    ValidateResult.rejected invalidNameReason
  else if !hasSuffix name.data ".zip".data then
    ValidateResult.rejected invalidExtReason
  else ValidateResult.ok

/-- Embedding of sendErrorToSlack: posts the message to the channel as a
threaded reply; the result of the post is ignored (only logged), so the
embedding just records the call. -/
def sendErrorToSlack (ev : AppMentionEvent) (errorMessage : String) : Call :=
  Call.postMessage ev.Channel errorMessage ev.TimeStamp

/-- Embedding of uploadFileToS3AndGetPresignedURL: puts the file bytes
under the key file.Name, then presigns a GET for the same key; returns
the presigned URL, or the first error. -/
def uploadFileToS3AndGetPresignedURL (env : Env) (file : SlackAppMentionEventFile) :
    List Call × Except String String :=
  match env.putObject file.Name file.Binary with
  | Except.error e => ([Call.putObject file.Name file.Binary], Except.error e)
  | Except.ok _ =>
    match env.presignGetObject file.Name with
    | Except.error e =>
      ([Call.putObject file.Name file.Binary, Call.presign file.Name], Except.error e)
    | Except.ok url =>
      ([Call.putObject file.Name file.Binary, Call.presign file.Name], Except.ok url)

/-- Outcome of one iteration of the file loop: either the loop body hit a
return statement (aborting the whole handler with that outcome), or it
ran to the end and the loop continues with the next file. -/
inductive StepOutcome where
  | abort (out : HandlerOutcome)
  | continues
  deriving DecidableEq, Repr

/-- One iteration of the loop body of handleAppMentionEvent, in source
order: fetch the file from Slack, fill in Binary, delete the file from
Slack, validate the name, upload and presign, shorten, post the short
URL as a threaded reply.  Every failure returns out of the handler (an
abort); only a fully successful iteration continues to the next file. -/
def processFile (env : Env) (ev : AppMentionEvent) (file : SlackAppMentionEventFile) :
    List Call × StepOutcome :=
  match env.getFile file.URLPrivateDownload with
  | Except.error _ =>
    ([Call.getFile file.URLPrivateDownload, sendErrorToSlack ev genericErrorReason],
     StepOutcome.abort (HandlerOutcome.returns ⟨500, "Internal Server Error"⟩ true))
  | Except.ok bin =>
    let f := { file with Binary := bin }
    match env.deleteFile f.ID with
    | Except.error _ =>
      ([Call.getFile file.URLPrivateDownload, Call.deleteFile f.ID,
        sendErrorToSlack ev genericErrorReason],
       StepOutcome.abort (HandlerOutcome.returns ⟨500, "Internal Server Error"⟩ true))
    | Except.ok _ =>
      match validateFile f.Name with
      | ValidateResult.panicked =>
        ([Call.getFile file.URLPrivateDownload, Call.deleteFile f.ID],
         StepOutcome.abort HandlerOutcome.panics)
      | ValidateResult.rejected reason =>
        ([Call.getFile file.URLPrivateDownload, Call.deleteFile f.ID,
          sendErrorToSlack ev reason],
         StepOutcome.abort (HandlerOutcome.returns ⟨400, "Bad Request"⟩ true))
      | ValidateResult.ok =>
        let up := uploadFileToS3AndGetPresignedURL env f
        match up.snd with
        | Except.error _ =>
          (Call.getFile file.URLPrivateDownload :: Call.deleteFile f.ID ::
            up.fst ++ [sendErrorToSlack ev genericErrorReason],
           StepOutcome.abort (HandlerOutcome.returns ⟨500, "Internal Server Error"⟩ true))
        | Except.ok presignedURL =>
          match env.shorten presignedURL with
          | Except.error _ =>
            (Call.getFile file.URLPrivateDownload :: Call.deleteFile f.ID ::
              up.fst ++ [Call.shorten presignedURL, sendErrorToSlack ev shortenErrorReason],
             StepOutcome.abort (HandlerOutcome.returns ⟨500, "Internal Server Error"⟩ true))
          | Except.ok shortURL =>
            match env.postMessage ev.Channel shortURL ev.TimeStamp with
            | Except.error _ =>
              (Call.getFile file.URLPrivateDownload :: Call.deleteFile f.ID ::
                up.fst ++ [Call.shorten presignedURL,
                  Call.postMessage ev.Channel shortURL ev.TimeStamp],
               StepOutcome.abort (HandlerOutcome.returns ⟨500, "Internal Server Error"⟩ true))
            | Except.ok _ =>
              (Call.getFile file.URLPrivateDownload :: Call.deleteFile f.ID ::
                up.fst ++ [Call.shorten presignedURL,
                  Call.postMessage ev.Channel shortURL ev.TimeStamp],
               StepOutcome.continues)

/-- Embedding of the for-loop of handleAppMentionEvent over the event
files, in order; a loop-body return aborts the whole loop, and falling
off the end returns 200 OK with a nil error. -/
def relayFiles (env : Env) (ev : AppMentionEvent) :
    List SlackAppMentionEventFile → List Call × HandlerOutcome
  | [] => ([], HandlerOutcome.returns ⟨200, "OK"⟩ false)
  | file :: rest =>
    let s := processFile env ev file
    match s.snd with
    | StepOutcome.abort out => (s.fst, out)
    | StepOutcome.continues =>
      let next := relayFiles env ev rest
      (s.fst ++ next.fst, next.snd)

/-- Embedding of handleAppMentionEvent: unmarshal the body into the file
list (an external JSON decoder), then run the loop; a failed unmarshal
notifies the user and returns 500. -/
def handleAppMentionEvent (env : Env) (ev : AppMentionEvent) (body : String) :
    List Call × HandlerOutcome :=
  match env.parseFiles body with
  | Except.error _ =>
    ([Call.parseFilesCall, sendErrorToSlack ev genericErrorReason],
     HandlerOutcome.returns ⟨500, "Internal Server Error"⟩ true)
  | Except.ok files =>
    let r := relayFiles env ev files
    (Call.parseFilesCall :: r.fst, r.snd)

/-- Embedding of handleURLVerification: unmarshal the body into a
challenge response and echo the challenge with status 200; a failed
unmarshal returns 500. -/
def handleURLVerification (env : Env) (body : String) : List Call × HandlerOutcome :=
  match env.parseChallenge body with
  | Except.error _ =>
    ([Call.parseChallengeCall], HandlerOutcome.returns ⟨500, "Internal Server Error"⟩ true)
  | Except.ok challenge =>
    ([Call.parseChallengeCall], HandlerOutcome.returns ⟨200, challenge⟩ false)

/-- Embedding of lambdaHandler, in source order: the retry filter first
(non-empty X-Slack-Retry-Num header short-circuits with 200), then
signature verification (failure gives 401), then event parsing (failure
gives 500), then dispatch on the event type; an event that is neither a
URL verification nor an app-mention callback falls through to the final
return of 400 Bad Request with the nil error left over from the
successful parse. -/
def lambdaHandler (env : Env) (r : APIGatewayProxyRequest) : List Call × HandlerOutcome :=
  if hget r.Headers "X-Slack-Retry-Num" ≠ "" then
    ([], HandlerOutcome.returns ⟨200, "No need retry"⟩ false)
  else
    match verifyRequest env r.Headers r.Body with
    | Except.error _ =>
      ([Call.verifyCall], HandlerOutcome.returns ⟨401, "Unauthorized"⟩ true)
    | Except.ok _ =>
      match env.parseEvent r.Body with
      | Except.error _ =>
        ([Call.verifyCall, Call.parseEventCall],
         HandlerOutcome.returns ⟨500, "Internal Server Error"⟩ true)
      | Except.ok pe =>
        match pe with
        | ParsedEvent.urlVerification =>
          let h := handleURLVerification env r.Body
          (Call.verifyCall :: Call.parseEventCall :: h.fst, h.snd)
        | ParsedEvent.callbackAppMention ev =>
          let h := handleAppMentionEvent env ev r.Body
          (Call.verifyCall :: Call.parseEventCall :: h.fst, h.snd)
        | ParsedEvent.callbackOther =>
          ([Call.verifyCall, Call.parseEventCall],
           HandlerOutcome.returns ⟨400, "Bad Request"⟩ false)
        | ParsedEvent.otherType =>
          ([Call.verifyCall, Call.parseEventCall],
           HandlerOutcome.returns ⟨400, "Bad Request"⟩ false)

/-- Filename policy as the spec words it: the extension must be ".zip"
and the base name — the name with that extension removed, which for a
name ending in ".zip" is exactly the name without its last 4 characters
— must match ^[A-Za-z0-9_-]+$. -/
def specFilePolicy (name : String) : Bool :=
  hasSuffix name.data ".zip".data &&
    matchesValidName (name.data.take (name.data.length - 4))

/-- Concrete file fixture with a name passing validation. -/
def fileA : SlackAppMentionEventFile :=
  ⟨"F001", "report.zip", "https://files.example/a", []⟩

/-- Concrete file fixture whose name violates the filename policy. -/
def fileBad : SlackAppMentionEventFile :=
  ⟨"F002", "bad name!.zip", "https://files.example/b", []⟩

/-- Concrete file fixture with a second valid name, used as the
subsequent file of a two-file event. -/
def fileC : SlackAppMentionEventFile :=
  ⟨"F003", "data.zip", "https://files.example/c", []⟩

/-- Concrete app-mention event fixture. -/
def evA : AppMentionEvent := ⟨"C123", "1700000000.000100"⟩

/-- Environment in which every collaborator succeeds and the event is an
app mention carrying the single valid file. -/
def happyEnv : Env where
  secretsVerify := fun _ _ => Except.ok ()
  parseEvent := fun _ => Except.ok (ParsedEvent.callbackAppMention evA)
  parseChallenge := fun _ => Except.ok "abc123"
  parseFiles := fun _ => Except.ok [fileA]
  getFile := fun _ => Except.ok [80, 75, 3, 4]
  deleteFile := fun _ => Except.ok ()
  putObject := fun _ _ => Except.ok ()
  presignGetObject := fun key => Except.ok ("https://bucket.s3.example/presigned/" ++ key)
  shorten := fun _ => Except.ok "https://sho.rt/x1"
  postMessage := fun _ _ _ => Except.ok ()

/-- Environment identical to happyEnv except that signature verification
always fails. -/
def badSigEnv : Env :=
  { happyEnv with secretsVerify := fun _ _ => Except.error "invalid signature" }

/-- Environment identical to happyEnv except that the event carries the
invalid-named file followed by a valid one. -/
def twoFileEnv : Env :=
  { happyEnv with parseFiles := fun _ => Except.ok [fileBad, fileC] }

/-- Environment identical to happyEnv except that the parsed event is a
callback whose inner event is not an app mention. -/
def otherCallbackEnv : Env :=
  { happyEnv with parseEvent := fun _ => Except.ok ParsedEvent.callbackOther }

/-- Environment identical to happyEnv except that the parsed event is a
URL-verification handshake. -/
def handshakeEnv : Env :=
  { happyEnv with parseEvent := fun _ => Except.ok ParsedEvent.urlVerification }

/-- Environment identical to happyEnv except that posting a message to
the channel always fails, and the event carries a valid file followed by
a second valid file. -/
def postFailEnv : Env :=
  { happyEnv with
      parseFiles := fun _ => Except.ok [fileA, fileC]
      postMessage := fun _ _ _ => Except.error "post failed" }

/-- Request fixture without a retry header. -/
def plainReq : APIGatewayProxyRequest :=
  ⟨[("X-Slack-Signature", "v0=abc"), ("X-Slack-Request-Timestamp", "123")], "payload"⟩

/-- Request fixture carrying a non-empty retry-count header. -/
def retryReq : APIGatewayProxyRequest :=
  ⟨[("X-Slack-Retry-Num", "1"), ("X-Slack-Signature", "v0=abc")], "payload"⟩

/-- Ordering check on a trace: every call satisfying tgt is preceded,
somewhere earlier in the trace, by a call satisfying pre.  The seen flag
records whether a pre call has already occurred. -/
def eventuallyPreceded (tgt pre : Call → Bool) : Bool → List Call → Bool
  | _, [] => true
  | seen, c :: rest =>
    ((!tgt c) || seen) && eventuallyPreceded tgt pre (seen || pre c) rest

theorem eventuallyPreceded_append (tgt pre : Call → Bool) (ys : List Call) :
    ∀ (xs : List Call) (seen : Bool),
      eventuallyPreceded tgt pre seen (xs ++ ys) =
        (eventuallyPreceded tgt pre seen xs &&
          eventuallyPreceded tgt pre (xs.foldl (fun b c => b || pre c) seen) ys) := by
  intro xs
  induction xs with
  | nil => intro seen; simp [eventuallyPreceded]
  | cons c rest ih =>
    intro seen
    simp [eventuallyPreceded, ih, Bool.and_assoc, List.foldl_cons]

theorem processFile_download_err (env : Env) (ev : AppMentionEvent)
    (file : SlackAppMentionEventFile) (e : String)
    (hg : env.getFile file.URLPrivateDownload = Except.error e) :
    processFile env ev file =
      ([Call.getFile file.URLPrivateDownload, sendErrorToSlack ev genericErrorReason],
       StepOutcome.abort (HandlerOutcome.returns ⟨500, "Internal Server Error"⟩ true)) := by
  simp [processFile, hg]

theorem processFile_delete_err (env : Env) (ev : AppMentionEvent)
    (file : SlackAppMentionEventFile) (bin : List Nat) (e : String)
    (hg : env.getFile file.URLPrivateDownload = Except.ok bin)
    (hd : env.deleteFile file.ID = Except.error e) :
    processFile env ev file =
      ([Call.getFile file.URLPrivateDownload, Call.deleteFile file.ID,
        sendErrorToSlack ev genericErrorReason],
       StepOutcome.abort (HandlerOutcome.returns ⟨500, "Internal Server Error"⟩ true)) := by
  simp [processFile, hg, hd]

theorem processFile_panicked (env : Env) (ev : AppMentionEvent)
    (file : SlackAppMentionEventFile) (bin : List Nat)
    (hg : env.getFile file.URLPrivateDownload = Except.ok bin)
    (hd : env.deleteFile file.ID = Except.ok ())
    (hv : validateFile file.Name = ValidateResult.panicked) :
    processFile env ev file =
      ([Call.getFile file.URLPrivateDownload, Call.deleteFile file.ID],
       StepOutcome.abort HandlerOutcome.panics) := by
  simp [processFile, hg, hd, hv]

theorem processFile_rejected (env : Env) (ev : AppMentionEvent)
    (file : SlackAppMentionEventFile) (bin : List Nat) (reason : String)
    (hg : env.getFile file.URLPrivateDownload = Except.ok bin)
    (hd : env.deleteFile file.ID = Except.ok ())
    (hv : validateFile file.Name = ValidateResult.rejected reason) :
    processFile env ev file =
      ([Call.getFile file.URLPrivateDownload, Call.deleteFile file.ID,
        sendErrorToSlack ev reason],
       StepOutcome.abort (HandlerOutcome.returns ⟨400, "Bad Request"⟩ true)) := by
  simp [processFile, hg, hd, hv]

theorem processFile_success (env : Env) (ev : AppMentionEvent)
    (file : SlackAppMentionEventFile) (bin : List Nat) (pu su : String)
    (hg : env.getFile file.URLPrivateDownload = Except.ok bin)
    (hd : env.deleteFile file.ID = Except.ok ())
    (hv : validateFile file.Name = ValidateResult.ok)
    (hput : env.putObject file.Name bin = Except.ok ())
    (hpre : env.presignGetObject file.Name = Except.ok pu)
    (hsh : env.shorten pu = Except.ok su)
    (hpost : env.postMessage ev.Channel su ev.TimeStamp = Except.ok ()) :
    processFile env ev file =
      ([Call.getFile file.URLPrivateDownload, Call.deleteFile file.ID,
        Call.putObject file.Name bin, Call.presign file.Name,
        Call.shorten pu, Call.postMessage ev.Channel su ev.TimeStamp],
       StepOutcome.continues) := by
  simp [processFile, uploadFileToS3AndGetPresignedURL, hg, hd, hv, hput, hpre, hsh, hpost]

theorem processFile_upload_err (env : Env) (ev : AppMentionEvent)
    (file : SlackAppMentionEventFile) (bin : List Nat) (e : String)
    (hg : env.getFile file.URLPrivateDownload = Except.ok bin)
    (hd : env.deleteFile file.ID = Except.ok ())
    (hv : validateFile file.Name = ValidateResult.ok)
    (hput : env.putObject file.Name bin = Except.error e) :
    processFile env ev file =
      ([Call.getFile file.URLPrivateDownload, Call.deleteFile file.ID,
        Call.putObject file.Name bin, sendErrorToSlack ev genericErrorReason],
       StepOutcome.abort (HandlerOutcome.returns ⟨500, "Internal Server Error"⟩ true)) := by
  simp [processFile, uploadFileToS3AndGetPresignedURL, hg, hd, hv, hput]

theorem processFile_presign_err (env : Env) (ev : AppMentionEvent)
    (file : SlackAppMentionEventFile) (bin : List Nat) (e : String)
    (hg : env.getFile file.URLPrivateDownload = Except.ok bin)
    (hd : env.deleteFile file.ID = Except.ok ())
    (hv : validateFile file.Name = ValidateResult.ok)
    (hput : env.putObject file.Name bin = Except.ok ())
    (hpre : env.presignGetObject file.Name = Except.error e) :
    processFile env ev file =
      ([Call.getFile file.URLPrivateDownload, Call.deleteFile file.ID,
        Call.putObject file.Name bin, Call.presign file.Name,
        sendErrorToSlack ev genericErrorReason],
       StepOutcome.abort (HandlerOutcome.returns ⟨500, "Internal Server Error"⟩ true)) := by
  simp [processFile, uploadFileToS3AndGetPresignedURL, hg, hd, hv, hput, hpre]

theorem processFile_shorten_err (env : Env) (ev : AppMentionEvent)
    (file : SlackAppMentionEventFile) (bin : List Nat) (pu e : String)
    (hg : env.getFile file.URLPrivateDownload = Except.ok bin)
    (hd : env.deleteFile file.ID = Except.ok ())
    (hv : validateFile file.Name = ValidateResult.ok)
    (hput : env.putObject file.Name bin = Except.ok ())
    (hpre : env.presignGetObject file.Name = Except.ok pu)
    (hsh : env.shorten pu = Except.error e) :
    processFile env ev file =
      ([Call.getFile file.URLPrivateDownload, Call.deleteFile file.ID,
        Call.putObject file.Name bin, Call.presign file.Name,
        Call.shorten pu, sendErrorToSlack ev shortenErrorReason],
       StepOutcome.abort (HandlerOutcome.returns ⟨500, "Internal Server Error"⟩ true)) := by
  simp [processFile, uploadFileToS3AndGetPresignedURL, hg, hd, hv, hput, hpre, hsh]

theorem processFile_post_err (env : Env) (ev : AppMentionEvent)
    (file : SlackAppMentionEventFile) (bin : List Nat) (pu su e : String)
    (hg : env.getFile file.URLPrivateDownload = Except.ok bin)
    (hd : env.deleteFile file.ID = Except.ok ())
    (hv : validateFile file.Name = ValidateResult.ok)
    (hput : env.putObject file.Name bin = Except.ok ())
    (hpre : env.presignGetObject file.Name = Except.ok pu)
    (hsh : env.shorten pu = Except.ok su)
    (hpost : env.postMessage ev.Channel su ev.TimeStamp = Except.error e) :
    processFile env ev file =
      ([Call.getFile file.URLPrivateDownload, Call.deleteFile file.ID,
        Call.putObject file.Name bin, Call.presign file.Name,
        Call.shorten pu, Call.postMessage ev.Channel su ev.TimeStamp],
       StepOutcome.abort (HandlerOutcome.returns ⟨500, "Internal Server Error"⟩ true)) := by
  simp [processFile, uploadFileToS3AndGetPresignedURL, hg, hd, hv, hput, hpre, hsh, hpost]

theorem processFile_delete_after_get (env : Env) (ev : AppMentionEvent)
    (file : SlackAppMentionEventFile) (seen : Bool) :
    eventuallyPreceded Call.isDeleteFile Call.isGetFile seen
      (processFile env ev file).fst = true := by
  cases hg : env.getFile file.URLPrivateDownload with
  | error e =>
    simp [processFile_download_err env ev file e hg, eventuallyPreceded, sendErrorToSlack,
      Call.isDeleteFile, Call.isGetFile]
  | ok bin =>
    cases hd : env.deleteFile file.ID with
    | error e =>
      simp [processFile_delete_err env ev file bin e hg hd, eventuallyPreceded, sendErrorToSlack,
        Call.isDeleteFile, Call.isGetFile]
    | ok u =>
      cases u
      cases hv : validateFile file.Name with
      | panicked =>
        simp [processFile_panicked env ev file bin hg hd hv, eventuallyPreceded,
          Call.isDeleteFile, Call.isGetFile]
      | rejected reason =>
        simp [processFile_rejected env ev file bin reason hg hd hv, eventuallyPreceded,
          sendErrorToSlack, Call.isDeleteFile, Call.isGetFile]
      | ok =>
        cases hput : env.putObject file.Name bin with
        | error e =>
          simp [processFile_upload_err env ev file bin e hg hd hv hput, eventuallyPreceded,
            sendErrorToSlack, Call.isDeleteFile, Call.isGetFile]
        | ok u2 =>
          cases u2
          cases hpre : env.presignGetObject file.Name with
          | error e =>
            simp [processFile_presign_err env ev file bin e hg hd hv hput hpre,
              eventuallyPreceded, sendErrorToSlack, Call.isDeleteFile, Call.isGetFile]
          | ok pu =>
            cases hsh : env.shorten pu with
            | error e =>
              simp [processFile_shorten_err env ev file bin pu e hg hd hv hput hpre hsh,
                eventuallyPreceded, sendErrorToSlack, Call.isDeleteFile, Call.isGetFile]
            | ok su =>
              cases hpost : env.postMessage ev.Channel su ev.TimeStamp with
              | error e =>
                simp [processFile_post_err env ev file bin pu su e hg hd hv hput hpre hsh hpost,
                  eventuallyPreceded, Call.isDeleteFile, Call.isGetFile]
              | ok u3 =>
                cases u3
                simp [processFile_success env ev file bin pu su hg hd hv hput hpre hsh hpost,
                  eventuallyPreceded, Call.isDeleteFile, Call.isGetFile]

theorem processFile_put_after_delete (env : Env) (ev : AppMentionEvent)
    (file : SlackAppMentionEventFile) (seen : Bool) :
    eventuallyPreceded Call.isPutObject Call.isDeleteFile seen
      (processFile env ev file).fst = true := by
  cases hg : env.getFile file.URLPrivateDownload with
  | error e =>
    simp [processFile_download_err env ev file e hg, eventuallyPreceded, sendErrorToSlack,
      Call.isPutObject, Call.isDeleteFile]
  | ok bin =>
    cases hd : env.deleteFile file.ID with
    | error e =>
      simp [processFile_delete_err env ev file bin e hg hd, eventuallyPreceded, sendErrorToSlack,
        Call.isPutObject, Call.isDeleteFile]
    | ok u =>
      cases u
      cases hv : validateFile file.Name with
      | panicked =>
        simp [processFile_panicked env ev file bin hg hd hv, eventuallyPreceded,
          Call.isPutObject, Call.isDeleteFile]
      | rejected reason =>
        simp [processFile_rejected env ev file bin reason hg hd hv, eventuallyPreceded,
          sendErrorToSlack, Call.isPutObject, Call.isDeleteFile]
      | ok =>
        cases hput : env.putObject file.Name bin with
        | error e =>
          simp [processFile_upload_err env ev file bin e hg hd hv hput, eventuallyPreceded,
            sendErrorToSlack, Call.isPutObject, Call.isDeleteFile]
        | ok u2 =>
          cases u2
          cases hpre : env.presignGetObject file.Name with
          | error e =>
            simp [processFile_presign_err env ev file bin e hg hd hv hput hpre,
              eventuallyPreceded, sendErrorToSlack, Call.isPutObject, Call.isDeleteFile]
          | ok pu =>
            cases hsh : env.shorten pu with
            | error e =>
              simp [processFile_shorten_err env ev file bin pu e hg hd hv hput hpre hsh,
                eventuallyPreceded, sendErrorToSlack, Call.isPutObject, Call.isDeleteFile]
            | ok su =>
              cases hpost : env.postMessage ev.Channel su ev.TimeStamp with
              | error e =>
                simp [processFile_post_err env ev file bin pu su e hg hd hv hput hpre hsh hpost,
                  eventuallyPreceded, Call.isPutObject, Call.isDeleteFile]
              | ok u3 =>
                cases u3
                simp [processFile_success env ev file bin pu su hg hd hv hput hpre hsh hpost,
                  eventuallyPreceded, Call.isPutObject, Call.isDeleteFile]

theorem relayFiles_ordered (tgt pre : Call → Bool)
    (hstep : ∀ (env : Env) (ev : AppMentionEvent) (file : SlackAppMentionEventFile)
      (seen : Bool), eventuallyPreceded tgt pre seen (processFile env ev file).fst = true)
    (env : Env) (ev : AppMentionEvent) :
    ∀ (files : List SlackAppMentionEventFile) (seen : Bool),
      eventuallyPreceded tgt pre seen (relayFiles env ev files).fst = true := by
  intro files
  induction files with
  | nil => intro seen; simp [relayFiles, eventuallyPreceded]
  | cons file rest ih =>
    intro seen
    cases hp : processFile env ev file with
    | mk calls step =>
      cases step with
      | abort out =>
        have h1 := hstep env ev file seen
        rw [hp] at h1
        simp [relayFiles, hp, h1]
      | continues =>
        have h1 := hstep env ev file seen
        rw [hp] at h1
        simp [relayFiles, hp, eventuallyPreceded_append, h1, ih]

theorem lambdaHandler_ordered (tgt pre : Call → Bool)
    (hstep : ∀ (env : Env) (ev : AppMentionEvent) (file : SlackAppMentionEventFile)
      (seen : Bool), eventuallyPreceded tgt pre seen (processFile env ev file).fst = true)
    (hv : tgt Call.verifyCall = false) (hpe : tgt Call.parseEventCall = false)
    (hpf : tgt Call.parseFilesCall = false) (hpc : tgt Call.parseChallengeCall = false)
    (hpm : ∀ ch t ts, tgt (Call.postMessage ch t ts) = false)
    (env : Env) (r : APIGatewayProxyRequest) (seen : Bool) :
    eventuallyPreceded tgt pre seen (lambdaHandler env r).fst = true := by
  by_cases hret : hget r.Headers "X-Slack-Retry-Num" ≠ ""
  · simp [lambdaHandler, hret, eventuallyPreceded]
  · cases hsv : verifyRequest env r.Headers r.Body with
    | error e => simp [lambdaHandler, hret, hsv, eventuallyPreceded, hv]
    | ok u =>
      cases u
      cases hev : env.parseEvent r.Body with
      | error e => simp [lambdaHandler, hret, hsv, hev, eventuallyPreceded, hv, hpe]
      | ok pe =>
        cases pe with
        | urlVerification =>
          cases hch : env.parseChallenge r.Body with
          | error e =>
            simp [lambdaHandler, hret, hsv, hev, handleURLVerification, hch,
              eventuallyPreceded, hv, hpe, hpc]
          | ok ch =>
            simp [lambdaHandler, hret, hsv, hev, handleURLVerification, hch,
              eventuallyPreceded, hv, hpe, hpc]
        | callbackAppMention ev =>
          cases hpfiles : env.parseFiles r.Body with
          | error e =>
            simp [lambdaHandler, hret, hsv, hev, handleAppMentionEvent, hpfiles,
              eventuallyPreceded, sendErrorToSlack, hv, hpe, hpf, hpm]
          | ok files =>
            simp [lambdaHandler, hret, hsv, hev, handleAppMentionEvent, hpfiles,
              eventuallyPreceded, hv, hpe, hpf,
              relayFiles_ordered tgt pre hstep env ev files]
        | callbackOther =>
          simp [lambdaHandler, hret, hsv, hev, eventuallyPreceded, hv, hpe]
        | otherType =>
          simp [lambdaHandler, hret, hsv, hev, eventuallyPreceded, hv, hpe]

/-- Shape check used for the handler step order: the trace is empty, or
its first call is the signature verification, and if any further call
follows, the next one is the event decoding. -/
def verifyThenParseShape : List Call → Bool
  | [] => true
  | Call.verifyCall :: rest =>
    match rest with
    | [] => true
    | Call.parseEventCall :: _ => true
    | _ => false
  | _ => false

/-- C1 counterexample: in a two-file event whose first file has an
invalid name, the handler posts the rejection reason and immediately
returns 400; the second file is never downloaded and nothing is ever
uploaded, so the validation failure of one file does abort processing of
the subsequent files, contrary to the claim. -/
theorem per_file_isolation_cex :
    lambdaHandler twoFileEnv plainReq =
      ([Call.verifyCall, Call.parseEventCall, Call.parseFilesCall,
        Call.getFile "https://files.example/b", Call.deleteFile "F002",
        Call.postMessage "C123" invalidNameReason "1700000000.000100"],
       HandlerOutcome.returns ⟨400, "Bad Request"⟩ true) ∧
    (lambdaHandler twoFileEnv plainReq).fst.count
      (Call.getFile "https://files.example/c") = 0 ∧
    (lambdaHandler twoFileEnv plainReq).fst.countP Call.isPutObject = 0 := by
  decide

/-- C1 (amended): per-file failures are not isolated.  A failure at any
step of the loop body aborts the loop at once — the trace and outcome of
the whole loop equal those of the failing iteration alone, so the
remaining files of the event are never processed — and the outcome is
400 Bad Request for a validation failure and 500 Internal Server Error
for every other failing step.  The per-branch equations pin down the
notification behaviour: the user is notified (a sendErrorToSlack post
appears in the trace) on download, delete, validation, upload, presign
and shorten failures, but a failure of the reply post itself is only
logged — its trace ends with the failed reply attempt and carries no
error notification. -/
theorem per_file_failure_aborts_event (env : Env) (ev : AppMentionEvent)
    (file : SlackAppMentionEventFile) (rest : List SlackAppMentionEventFile) :
    (∀ out : HandlerOutcome, (processFile env ev file).snd = StepOutcome.abort out →
      relayFiles env ev (file :: rest) = ((processFile env ev file).fst, out)) ∧
    (∀ e : String, env.getFile file.URLPrivateDownload = Except.error e →
      relayFiles env ev (file :: rest) =
        ([Call.getFile file.URLPrivateDownload, sendErrorToSlack ev genericErrorReason],
         HandlerOutcome.returns ⟨500, "Internal Server Error"⟩ true)) ∧
    (∀ (bin : List Nat) (e : String),
      env.getFile file.URLPrivateDownload = Except.ok bin →
      env.deleteFile file.ID = Except.error e →
      relayFiles env ev (file :: rest) =
        ([Call.getFile file.URLPrivateDownload, Call.deleteFile file.ID,
          sendErrorToSlack ev genericErrorReason],
         HandlerOutcome.returns ⟨500, "Internal Server Error"⟩ true)) ∧
    (∀ (bin : List Nat) (reason : String),
      env.getFile file.URLPrivateDownload = Except.ok bin →
      env.deleteFile file.ID = Except.ok () →
      validateFile file.Name = ValidateResult.rejected reason →
      relayFiles env ev (file :: rest) =
        ([Call.getFile file.URLPrivateDownload, Call.deleteFile file.ID,
          sendErrorToSlack ev reason],
         HandlerOutcome.returns ⟨400, "Bad Request"⟩ true)) ∧
    (∀ (bin : List Nat) (e : String),
      env.getFile file.URLPrivateDownload = Except.ok bin →
      env.deleteFile file.ID = Except.ok () →
      validateFile file.Name = ValidateResult.ok →
      env.putObject file.Name bin = Except.error e →
      relayFiles env ev (file :: rest) =
        ([Call.getFile file.URLPrivateDownload, Call.deleteFile file.ID,
          Call.putObject file.Name bin, sendErrorToSlack ev genericErrorReason],
         HandlerOutcome.returns ⟨500, "Internal Server Error"⟩ true)) ∧
    (∀ (bin : List Nat) (e : String),
      env.getFile file.URLPrivateDownload = Except.ok bin →
      env.deleteFile file.ID = Except.ok () →
      validateFile file.Name = ValidateResult.ok →
      env.putObject file.Name bin = Except.ok () →
      env.presignGetObject file.Name = Except.error e →
      relayFiles env ev (file :: rest) =
        ([Call.getFile file.URLPrivateDownload, Call.deleteFile file.ID,
          Call.putObject file.Name bin, Call.presign file.Name,
          sendErrorToSlack ev genericErrorReason],
         HandlerOutcome.returns ⟨500, "Internal Server Error"⟩ true)) ∧
    (∀ (bin : List Nat) (pu e : String),
      env.getFile file.URLPrivateDownload = Except.ok bin →
      env.deleteFile file.ID = Except.ok () →
      validateFile file.Name = ValidateResult.ok →
      env.putObject file.Name bin = Except.ok () →
      env.presignGetObject file.Name = Except.ok pu →
      env.shorten pu = Except.error e →
      relayFiles env ev (file :: rest) =
        ([Call.getFile file.URLPrivateDownload, Call.deleteFile file.ID,
          Call.putObject file.Name bin, Call.presign file.Name,
          Call.shorten pu, sendErrorToSlack ev shortenErrorReason],
         HandlerOutcome.returns ⟨500, "Internal Server Error"⟩ true)) ∧
    (∀ (bin : List Nat) (pu su e : String),
      env.getFile file.URLPrivateDownload = Except.ok bin →
      env.deleteFile file.ID = Except.ok () →
      validateFile file.Name = ValidateResult.ok →
      env.putObject file.Name bin = Except.ok () →
      env.presignGetObject file.Name = Except.ok pu →
      env.shorten pu = Except.ok su →
      env.postMessage ev.Channel su ev.TimeStamp = Except.error e →
      relayFiles env ev (file :: rest) =
        ([Call.getFile file.URLPrivateDownload, Call.deleteFile file.ID,
          Call.putObject file.Name bin, Call.presign file.Name,
          Call.shorten pu, Call.postMessage ev.Channel su ev.TimeStamp],
         HandlerOutcome.returns ⟨500, "Internal Server Error"⟩ true)) := by
  refine ⟨?_, ?_, ?_, ?_, ?_, ?_, ?_, ?_⟩
  · intro out h
    simp [relayFiles, h]
  · intro e hg
    simp [relayFiles, processFile_download_err env ev file e hg]
  · intro bin e hg hd
    simp [relayFiles, processFile_delete_err env ev file bin e hg hd]
  · intro bin reason hg hd hv
    simp [relayFiles, processFile_rejected env ev file bin reason hg hd hv]
  · intro bin e hg hd hv hput
    simp [relayFiles, processFile_upload_err env ev file bin e hg hd hv hput]
  · intro bin e hg hd hv hput hpre
    simp [relayFiles, processFile_presign_err env ev file bin e hg hd hv hput hpre]
  · intro bin pu e hg hd hv hput hpre hsh
    simp [relayFiles, processFile_shorten_err env ev file bin pu e hg hd hv hput hpre hsh]
  · intro bin pu su e hg hd hv hput hpre hsh hpost
    simp [relayFiles, processFile_post_err env ev file bin pu su e hg hd hv hput hpre hsh hpost]

/-- Witness for per_file_failure_aborts_event: the validation-failure
branch at the two-file fixture (reason notified, 400, second file
untouched) and the reply-post-failure branch at the post-failure fixture
(500, no error notification in the trace, second file untouched). -/
theorem per_file_failure_aborts_event_witness :
    relayFiles twoFileEnv evA [fileBad, fileC] =
      ([Call.getFile "https://files.example/b", Call.deleteFile "F002",
        sendErrorToSlack evA invalidNameReason],
       HandlerOutcome.returns ⟨400, "Bad Request"⟩ true) ∧
    relayFiles postFailEnv evA [fileA, fileC] =
      ([Call.getFile "https://files.example/a", Call.deleteFile "F001",
        Call.putObject "report.zip" [80, 75, 3, 4], Call.presign "report.zip",
        Call.shorten "https://bucket.s3.example/presigned/report.zip",
        Call.postMessage "C123" "https://sho.rt/x1" "1700000000.000100"],
       HandlerOutcome.returns ⟨500, "Internal Server Error"⟩ true) := by
  constructor
  · exact (per_file_failure_aborts_event twoFileEnv evA fileBad [fileC]).2.2.2.1
      [80, 75, 3, 4] invalidNameReason rfl rfl (by decide)
  · exact (per_file_failure_aborts_event postFailEnv evA fileA [fileC]).2.2.2.2.2.2.2
      [80, 75, 3, 4] "https://bucket.s3.example/presigned/report.zip" "https://sho.rt/x1"
      "post failed" rfl rfl (by decide) rfl rfl rfl rfl

/-- C2 counterexample: in a fully successful single-file run, the Slack
DeleteFile call occurs at trace position 4 and the S3 PutObject only at
position 5, so the source copy is deleted before any durable copy
exists, contrary to the claim that deletion happens only after a
successful upload. -/
theorem delete_before_upload_cex :
    lambdaHandler happyEnv plainReq =
      ([Call.verifyCall, Call.parseEventCall, Call.parseFilesCall,
        Call.getFile "https://files.example/a", Call.deleteFile "F001",
        Call.putObject "report.zip" [80, 75, 3, 4], Call.presign "report.zip",
        Call.shorten "https://bucket.s3.example/presigned/report.zip",
        Call.postMessage "C123" "https://sho.rt/x1" "1700000000.000100"],
       HandlerOutcome.returns ⟨200, "OK"⟩ false) ∧
    eventuallyPreceded Call.isDeleteFile Call.isPutObject false
      (lambdaHandler happyEnv plainReq).fst = false := by
  decide

/-- C2 (amended): in every run, a DeleteFile call is issued only after a
GetFile call for the file has already been made (delete-after-download),
and a PutObject call is issued only after a DeleteFile call has already
been made — that is, the source copy is deleted after the download but
before, not after, the storage upload. -/
theorem delete_after_download_before_upload (env : Env) (r : APIGatewayProxyRequest) :
    eventuallyPreceded Call.isDeleteFile Call.isGetFile false
      (lambdaHandler env r).fst = true ∧
    eventuallyPreceded Call.isPutObject Call.isDeleteFile false
      (lambdaHandler env r).fst = true := by
  constructor
  · exact lambdaHandler_ordered Call.isDeleteFile Call.isGetFile
      processFile_delete_after_get rfl rfl rfl rfl (fun _ _ _ => rfl) env r false
  · exact lambdaHandler_ordered Call.isPutObject Call.isDeleteFile
      processFile_put_after_delete rfl rfl rfl rfl (fun _ _ _ => rfl) env r false

/-- C3: a request with an empty retry header whose signature verification
fails is answered with 401 Unauthorized, and no downstream capability
(fetch, delete, upload, presign, shorten, post) is invoked. -/
theorem invalid_signature_401_no_downstream (env : Env) (r : APIGatewayProxyRequest)
    (e : String)
    (hret : hget r.Headers "X-Slack-Retry-Num" = "")
    (hsv : env.secretsVerify r.Headers r.Body = Except.error e) :
    lambdaHandler env r =
      ([Call.verifyCall], HandlerOutcome.returns ⟨401, "Unauthorized"⟩ true) ∧
    (lambdaHandler env r).fst.countP Call.downstream = 0 := by
  have hmain : lambdaHandler env r =
      ([Call.verifyCall], HandlerOutcome.returns ⟨401, "Unauthorized"⟩ true) := by
    simp [lambdaHandler, verifyRequest, hret, hsv]
  exact ⟨hmain, by rw [hmain]; decide⟩

/-- Witness for invalid_signature_401_no_downstream at the bad-signature
fixture. -/
theorem invalid_signature_401_no_downstream_witness :
    lambdaHandler badSigEnv plainReq =
      ([Call.verifyCall], HandlerOutcome.returns ⟨401, "Unauthorized"⟩ true) ∧
    (lambdaHandler badSigEnv plainReq).fst.countP Call.downstream = 0 :=
  invalid_signature_401_no_downstream badSigEnv plainReq "invalid signature"
    (by decide) rfl

/-- C4: a request whose retry-count header is present and non-empty is
answered 200 "No need retry" with no calls at all, and the response does
not depend on the environment, so replaying the same request yields an
identical response without re-invoking any capability. -/
theorem retry_header_short_circuit (env : Env) (r : APIGatewayProxyRequest)
    (hret : hget r.Headers "X-Slack-Retry-Num" ≠ "") :
    lambdaHandler env r = ([], HandlerOutcome.returns ⟨200, "No need retry"⟩ false) ∧
    (∀ env2 : Env, lambdaHandler env2 r = lambdaHandler env r) := by
  have hmain : ∀ e : Env, lambdaHandler e r =
      ([], HandlerOutcome.returns ⟨200, "No need retry"⟩ false) := by
    intro e; simp [lambdaHandler, hret]
  exact ⟨hmain env, fun env2 => (hmain env2).trans (hmain env).symm⟩

/-- Witness for retry_header_short_circuit at the retry-request fixture,
replayed against a second environment. -/
theorem retry_header_short_circuit_witness :
    lambdaHandler happyEnv retryReq =
      ([], HandlerOutcome.returns ⟨200, "No need retry"⟩ false) ∧
    lambdaHandler badSigEnv retryReq = lambdaHandler happyEnv retryReq :=
  ⟨(retry_header_short_circuit happyEnv retryReq (by decide)).1,
   (retry_header_short_circuit happyEnv retryReq (by decide)).2 badSigEnv⟩

/-- C5 counterexample: a request with a non-empty retry header and an
invalid signature is answered 200 with an empty trace — the signature is
never even checked — so the retry filter runs before authentication,
contrary to the claimed authentication-first order. -/
theorem retry_before_auth_cex :
    lambdaHandler badSigEnv retryReq =
      ([], HandlerOutcome.returns ⟨200, "No need retry"⟩ false) ∧
    badSigEnv.secretsVerify retryReq.Headers retryReq.Body =
      Except.error "invalid signature" ∧
    (lambdaHandler badSigEnv retryReq).fst.count Call.verifyCall = 0 :=
  ⟨by decide, rfl, by decide⟩

/-- C5 (amended): the handler runs the retry filter first (a non-empty
retry header short-circuits before any call is made), then signature
verification, then event decoding; in particular the body is parsed as
structured data only after the signature check, as the trace always
starts with the verification call followed, if anything, by the parse
call. -/
theorem handler_step_order (env : Env) (r : APIGatewayProxyRequest) :
    (hget r.Headers "X-Slack-Retry-Num" ≠ "" →
      lambdaHandler env r = ([], HandlerOutcome.returns ⟨200, "No need retry"⟩ false)) ∧
    verifyThenParseShape (lambdaHandler env r).fst = true := by
  constructor
  · intro hret; simp [lambdaHandler, hret]
  · by_cases hret : hget r.Headers "X-Slack-Retry-Num" ≠ ""
    · simp [lambdaHandler, hret, verifyThenParseShape]
    · cases hsv : verifyRequest env r.Headers r.Body with
      | error e => simp [lambdaHandler, hret, hsv, verifyThenParseShape]
      | ok u =>
        cases u
        cases hev : env.parseEvent r.Body with
        | error e => simp [lambdaHandler, hret, hsv, hev, verifyThenParseShape]
        | ok pe =>
          cases pe <;>
            simp [lambdaHandler, hret, hsv, hev, verifyThenParseShape,
              handleURLVerification, handleAppMentionEvent]

/-- Witness for handler_step_order at the retry-request fixture with an
invalid signature. -/
theorem handler_step_order_witness :
    lambdaHandler badSigEnv retryReq =
      ([], HandlerOutcome.returns ⟨200, "No need retry"⟩ false) ∧
    verifyThenParseShape (lambdaHandler badSigEnv retryReq).fst = true :=
  ⟨(handler_step_order badSigEnv retryReq).1 (by decide),
   (handler_step_order badSigEnv retryReq).2⟩

/-- C6: an authenticated callback event with exactly one file that passes
validation, in an environment where every downstream call succeeds,
performs exactly one upload, one presign, one shorten, one source-file
deletion and one posted threaded reply whose text is the shortened URL,
and answers 200 OK. -/
theorem single_valid_file_exactly_one_each (env : Env) (r : APIGatewayProxyRequest)
    (ev : AppMentionEvent) (file : SlackAppMentionEventFile) (bin : List Nat)
    (pu su : String)
    (hret : hget r.Headers "X-Slack-Retry-Num" = "")
    (hsv : env.secretsVerify r.Headers r.Body = Except.ok ())
    (hev : env.parseEvent r.Body = Except.ok (ParsedEvent.callbackAppMention ev))
    (hfiles : env.parseFiles r.Body = Except.ok [file])
    (hg : env.getFile file.URLPrivateDownload = Except.ok bin)
    (hd : env.deleteFile file.ID = Except.ok ())
    (hv : validateFile file.Name = ValidateResult.ok)
    (hput : env.putObject file.Name bin = Except.ok ())
    (hpre : env.presignGetObject file.Name = Except.ok pu)
    (hsh : env.shorten pu = Except.ok su)
    (hpost : env.postMessage ev.Channel su ev.TimeStamp = Except.ok ()) :
    lambdaHandler env r =
      ([Call.verifyCall, Call.parseEventCall, Call.parseFilesCall,
        Call.getFile file.URLPrivateDownload, Call.deleteFile file.ID,
        Call.putObject file.Name bin, Call.presign file.Name,
        Call.shorten pu, Call.postMessage ev.Channel su ev.TimeStamp],
       HandlerOutcome.returns ⟨200, "OK"⟩ false) ∧
    (lambdaHandler env r).fst.countP Call.isPutObject = 1 ∧
    (lambdaHandler env r).fst.countP Call.isPresign = 1 ∧
    (lambdaHandler env r).fst.countP Call.isShorten = 1 ∧
    (lambdaHandler env r).fst.countP Call.isDeleteFile = 1 ∧
    (lambdaHandler env r).fst.countP Call.isPostMessage = 1 ∧
    Call.postMessage ev.Channel su ev.TimeStamp ∈ (lambdaHandler env r).fst := by
  have hmain : lambdaHandler env r =
      ([Call.verifyCall, Call.parseEventCall, Call.parseFilesCall,
        Call.getFile file.URLPrivateDownload, Call.deleteFile file.ID,
        Call.putObject file.Name bin, Call.presign file.Name,
        Call.shorten pu, Call.postMessage ev.Channel su ev.TimeStamp],
       HandlerOutcome.returns ⟨200, "OK"⟩ false) := by
    simp [lambdaHandler, verifyRequest, hret, hsv, hev, handleAppMentionEvent, hfiles,
      relayFiles, processFile_success env ev file bin pu su hg hd hv hput hpre hsh hpost]
  refine ⟨hmain, ?_, ?_, ?_, ?_, ?_, ?_⟩ <;> rw [hmain] <;>
    simp [List.countP_cons, List.countP_nil, Call.isPutObject, Call.isPresign,
      Call.isShorten, Call.isDeleteFile, Call.isPostMessage]

/-- Witness for single_valid_file_exactly_one_each at the happy-path
fixture. -/
theorem single_valid_file_exactly_one_each_witness :
    lambdaHandler happyEnv plainReq =
      ([Call.verifyCall, Call.parseEventCall, Call.parseFilesCall,
        Call.getFile "https://files.example/a", Call.deleteFile "F001",
        Call.putObject "report.zip" [80, 75, 3, 4], Call.presign "report.zip",
        Call.shorten "https://bucket.s3.example/presigned/report.zip",
        Call.postMessage "C123" "https://sho.rt/x1" "1700000000.000100"],
       HandlerOutcome.returns ⟨200, "OK"⟩ false) ∧
    (lambdaHandler happyEnv plainReq).fst.countP Call.isPutObject = 1 ∧
    (lambdaHandler happyEnv plainReq).fst.countP Call.isPresign = 1 ∧
    (lambdaHandler happyEnv plainReq).fst.countP Call.isShorten = 1 ∧
    (lambdaHandler happyEnv plainReq).fst.countP Call.isDeleteFile = 1 ∧
    (lambdaHandler happyEnv plainReq).fst.countP Call.isPostMessage = 1 ∧
    Call.postMessage "C123" "https://sho.rt/x1" "1700000000.000100" ∈
      (lambdaHandler happyEnv plainReq).fst :=
  single_valid_file_exactly_one_each happyEnv plainReq evA fileA [80, 75, 3, 4]
    "https://bucket.s3.example/presigned/report.zip" "https://sho.rt/x1"
    (by decide) rfl rfl rfl rfl rfl (by decide) rfl rfl rfl rfl

/-- C7 counterexample: an authenticated, well-formed request whose event
is a callback with an unrecognized inner event is answered with status
400 "Bad Request", which is not a benign success status, contrary to the
claim that only malformed payloads produce an error response. -/
theorem unknown_event_not_success_cex :
    lambdaHandler otherCallbackEnv plainReq =
      ([Call.verifyCall, Call.parseEventCall],
       HandlerOutcome.returns ⟨400, "Bad Request"⟩ false) ∧
    (400 : Nat) ≠ 200 := by
  decide

/-- C7 (amended): an authenticated well-formed request whose event kind
is neither a handshake nor a recognized callback is dropped with no
downstream calls, status 400 Bad Request and a nil Go error, while a
malformed (unparseable) payload is answered 500 with a non-nil error —
the two cases stay distinguishable, but the unrecognized case is not a
success response. -/
theorem unknown_event_400_nil_error (env : Env) (r : APIGatewayProxyRequest)
    (hret : hget r.Headers "X-Slack-Retry-Num" = "")
    (hsv : env.secretsVerify r.Headers r.Body = Except.ok ()) :
    ((env.parseEvent r.Body = Except.ok ParsedEvent.callbackOther ∨
      env.parseEvent r.Body = Except.ok ParsedEvent.otherType) →
      lambdaHandler env r =
        ([Call.verifyCall, Call.parseEventCall],
         HandlerOutcome.returns ⟨400, "Bad Request"⟩ false)) ∧
    (∀ e : String, env.parseEvent r.Body = Except.error e →
      lambdaHandler env r =
        ([Call.verifyCall, Call.parseEventCall],
         HandlerOutcome.returns ⟨500, "Internal Server Error"⟩ true)) := by
  constructor
  · rintro (hev | hev) <;> simp [lambdaHandler, verifyRequest, hret, hsv, hev]
  · intro e hev
    simp [lambdaHandler, verifyRequest, hret, hsv, hev]

/-- Witness for unknown_event_400_nil_error at the unrecognized-callback
fixture. -/
theorem unknown_event_400_nil_error_witness :
    lambdaHandler otherCallbackEnv plainReq =
      ([Call.verifyCall, Call.parseEventCall],
       HandlerOutcome.returns ⟨400, "Bad Request"⟩ false) :=
  (unknown_event_400_nil_error otherCallbackEnv plainReq (by decide) rfl).1 (Or.inl rfl)

/-- C9: an authenticated URL-verification (handshake) request is answered
with status 200 and a body that is exactly the challenge extracted from
the payload, unchanged. -/
theorem handshake_echoes_challenge (env : Env) (r : APIGatewayProxyRequest)
    (ch : String)
    (hret : hget r.Headers "X-Slack-Retry-Num" = "")
    (hsv : env.secretsVerify r.Headers r.Body = Except.ok ())
    (hev : env.parseEvent r.Body = Except.ok ParsedEvent.urlVerification)
    (hch : env.parseChallenge r.Body = Except.ok ch) :
    lambdaHandler env r =
      ([Call.verifyCall, Call.parseEventCall, Call.parseChallengeCall],
       HandlerOutcome.returns ⟨200, ch⟩ false) := by
  simp [lambdaHandler, verifyRequest, hret, hsv, hev, handleURLVerification, hch]

/-- Witness for handshake_echoes_challenge with the challenge abc123. -/
theorem handshake_echoes_challenge_witness :
    lambdaHandler handshakeEnv plainReq =
      ([Call.verifyCall, Call.parseEventCall, Call.parseChallengeCall],
       HandlerOutcome.returns ⟨200, "abc123"⟩ false) :=
  handshake_echoes_challenge handshakeEnv plainReq "abc123" (by decide) rfl rfl rfl

/-- C8: for a name of at least 4 characters, validation accepts exactly
when the spec-worded policy holds (extension ".zip" and base name
matching the anchored character-class expression); every rejection
carries one of the two human-readable reasons; when validation does not
accept, no upload is ever attempted for the event, and when it rejects
after a successful download and delete, the reason is posted to the
originating channel as a threaded reply. -/
theorem filename_policy_iff_and_no_upload (name : String) (env : Env)
    (ev : AppMentionEvent) (file : SlackAppMentionEventFile)
    (rest : List SlackAppMentionEventFile)
    (hlen : 4 ≤ name.data.length) (hname : file.Name = name) :
    ((validateFile name = ValidateResult.ok) ↔ specFilePolicy name = true) ∧
    (∀ reason : String, validateFile name = ValidateResult.rejected reason →
      reason = invalidNameReason ∨ reason = invalidExtReason) ∧
    (validateFile name ≠ ValidateResult.ok →
      (relayFiles env ev (file :: rest)).fst.countP Call.isPutObject = 0) ∧
    (∀ (reason : String) (bin : List Nat),
      env.getFile file.URLPrivateDownload = Except.ok bin →
      env.deleteFile file.ID = Except.ok () →
      validateFile name = ValidateResult.rejected reason →
      Call.postMessage ev.Channel reason ev.TimeStamp ∈
        (relayFiles env ev (file :: rest)).fst) := by
  have hnl : ¬ name.data.length < 4 := not_lt.mpr hlen
  refine ⟨?_, ?_, ?_, ?_⟩
  · unfold validateFile specFilePolicy
    rw [if_neg hnl]
    cases hm : matchesValidName (name.data.take (name.data.length - 4)) <;>
      cases hs : hasSuffix name.data ".zip".data <;> simp
  · intro reason h
    unfold validateFile at h
    rw [if_neg hnl] at h
    cases hm : matchesValidName (name.data.take (name.data.length - 4)) with
    | false =>
      rw [hm] at h
      simp at h
      exact Or.inl h.symm
    | true =>
      rw [hm] at h
      simp at h
      cases hs : hasSuffix name.data ".zip".data with
      | false =>
        rw [hs] at h
        simp at h
        exact Or.inr h.symm
      | true =>
        rw [hs] at h
        simp at h
  · intro hnok
    cases hg : env.getFile file.URLPrivateDownload with
    | error e =>
      simp [relayFiles, processFile_download_err env ev file e hg, sendErrorToSlack,
        List.countP_cons, List.countP_nil, Call.isPutObject]
    | ok bin =>
      cases hd : env.deleteFile file.ID with
      | error e =>
        simp [relayFiles, processFile_delete_err env ev file bin e hg hd, sendErrorToSlack,
          List.countP_cons, List.countP_nil, Call.isPutObject]
      | ok u =>
        cases u
        cases hv : validateFile file.Name with
        | panicked =>
          simp [relayFiles, processFile_panicked env ev file bin hg hd hv,
            List.countP_cons, List.countP_nil, Call.isPutObject]
        | rejected reason =>
          simp [relayFiles, processFile_rejected env ev file bin reason hg hd hv,
            sendErrorToSlack, List.countP_cons, List.countP_nil, Call.isPutObject]
        | ok =>
          rw [hname] at hv
          exact absurd hv hnok
  · intro reason bin hg hd hv
    rw [← hname] at hv
    simp [relayFiles, processFile_rejected env ev file bin reason hg hd hv, sendErrorToSlack]

/-- Witness for filename_policy_iff_and_no_upload at the invalid-named
file of the two-file fixture. -/
theorem filename_policy_iff_and_no_upload_witness :
    ((validateFile "bad name!.zip" = ValidateResult.ok) ↔
      specFilePolicy "bad name!.zip" = true) ∧
    (relayFiles twoFileEnv evA [fileBad, fileC]).fst.countP Call.isPutObject = 0 ∧
    Call.postMessage "C123" invalidNameReason "1700000000.000100" ∈
      (relayFiles twoFileEnv evA [fileBad, fileC]).fst := by
  have h := filename_policy_iff_and_no_upload "bad name!.zip" twoFileEnv evA fileBad
    [fileC] (by decide) rfl
  exact ⟨h.1, h.2.2.1 (by decide), h.2.2.2 invalidNameReason [80, 75, 3, 4] rfl rfl (by decide)⟩

/-- C10: validateFile slices the name unconditionally, so it panics
exactly when the name is shorter than 4 characters; on the 4-character
name ".zip" the base name is the empty string, which fails the one-or-
more character-class match and is rejected with the filename reason. -/
theorem validateFile_panics_iff_short_name (name : String) :
    (validateFile name = ValidateResult.panicked ↔ name.data.length < 4) ∧
    validateFile ".zip" = ValidateResult.rejected invalidNameReason := by
  constructor
  · constructor
    · intro h
      by_contra hlen
      unfold validateFile at h
      rw [if_neg hlen] at h
      cases hm : matchesValidName (name.data.take (name.data.length - 4)) with
      | false =>
        rw [hm] at h
        simp at h
      | true =>
        rw [hm] at h
        simp at h
        cases hs : hasSuffix name.data ".zip".data with
        | false =>
          rw [hs] at h
          simp at h
        | true =>
          rw [hs] at h
          simp at h
    · intro h
      unfold validateFile
      rw [if_pos h]
  · decide

end SlackRelay
